import Mathlib

/-!
Verification of the karcher home-robot API client (`src/karcher/karcher.py`)
against its natural-language specification.  The request/response plumbing of
`KarcherHome` is embedded shallowly: JSON bodies become an inductive `JsonValue`,
the canonical signing string of `KarcherHome._request` becomes `requestSignData`,
the envelope decoding of `KarcherHome._process_response` becomes
`processResponse`, and each API operation is modelled up to its first network
action.  Functions living in modules that are not part of the sources here
(`utils.py`, `auth.py`, `exception.py`, `map.py`, `consts.py`) are either
parameters of the embedding (the digest `md5`, the field cipher `encrypt`,
`is_email`, the error-code table, the binary map decoder) or are modelled from
the specification and marked as such in their doc comments.
-/

set_option autoImplicit false

namespace Karcher

/-- JSON values as produced by Python's `json` module restricted to the shapes
this client exchanges: `null`, booleans, integers, strings, arrays and objects
(objects keep insertion order, as Python dicts do). -/
inductive JsonValue where
  | null
  | bool (b : Bool)
  | num (n : Int)
  | str (s : String)
  | arr (xs : List JsonValue)
  | obj (fields : List (String × JsonValue))

/-- Lookup of a key in a JSON object's field list, i.e. Python `d[k]` /
`k in d` on a dict whose keys are unique. -/
def jsonLookup (k : String) : List (String × JsonValue) → Option JsonValue
  | [] => none
  | (k2, v) :: rest => if k2 = k then some v else jsonLookup k rest

/-- Lower-case hexadecimal digit. -/
def hexDigitLower (n : Nat) : Char :=
  if n < 10 then Char.ofNat (48 + n) else Char.ofNat (87 + n)

/-- Upper-case hexadecimal digit. -/
def hexDigitUpper (n : Nat) : Char :=
  if n < 10 then Char.ofNat (48 + n) else Char.ofNat (55 + n)

/-- Four lower-case hex digits, as in Python's `\uXXXX` escapes. -/
def hex4Lower (n : Nat) : String :=
  String.mk [hexDigitLower (n / 4096 % 16), hexDigitLower (n / 256 % 16),
    hexDigitLower (n / 16 % 16), hexDigitLower (n % 16)]

/-- Escape of one character following Python's `json.dumps` default
(`ensure_ascii=True`): quote, backslash and the short control escapes get a
backslash form, every other character outside `0x20`–`0x7e` becomes `\uXXXX`
(with a surrogate pair above `0xFFFF`), the rest stay themselves. -/
def jsonEscapeChar (c : Char) : String :=
  if c = '"' then "\\\""
  else if c = '\\' then "\\\\"
  else if c = Char.ofNat 8 then "\\b"
  else if c = Char.ofNat 9 then "\\t"
  else if c = Char.ofNat 10 then "\\n"
  else if c = Char.ofNat 12 then "\\f"
  else if c = Char.ofNat 13 then "\\r"
  else if c.toNat < 32 ∨ c.toNat > 126 then
    if c.toNat < 65536 then "\\u" ++ hex4Lower c.toNat
    else
      "\\u" ++ hex4Lower (55296 + (c.toNat - 65536) / 1024) ++
        "\\u" ++ hex4Lower (56320 + (c.toNat - 65536) % 1024)
  else String.singleton c

/-- String escaping of Python's `json.dumps`, character by character. -/
def jsonEscape (s : String) : String :=
  s.data.foldl (fun acc c => acc ++ jsonEscapeChar c) ""

mutual

/-- Compact JSON serialization, Python's
`json.dumps(v, separators=(',', ':'))`: no inserted whitespace. -/
def compactDumps : JsonValue → String
  | .null => "null"
  | .bool true => "true"
  | .bool false => "false"
  | .num n => toString n
  | .str s => "\"" ++ jsonEscape s ++ "\""
  | .arr xs => "[" ++ compactDumpsArr xs ++ "]"
  | .obj fs => "\x7b" ++ compactDumpsObj fs ++ "\x7d"

/-- Comma-separated compact serialization of array elements. -/
def compactDumpsArr : List JsonValue → String
  | [] => ""
  | [x] => compactDumps x
  | x :: y :: xs => compactDumps x ++ "," ++ compactDumpsArr (y :: xs)

/-- Comma-separated compact serialization of object fields. -/
def compactDumpsObj : List (String × JsonValue) → String
  | [] => ""
  | [(k, v)] => "\"" ++ jsonEscape k ++ "\":" ++ compactDumps v
  | (k, v) :: f :: fs =>
    "\"" ++ jsonEscape k ++ "\":" ++ compactDumps v ++ "," ++ compactDumpsObj (f :: fs)

end

/-- Escape of one character inside a Python `repr` of a string: backslash and
the quote get escaped, control characters get `\xNN`, the rest stay. -/
def pyReprEscapeChar (c : Char) : String :=
  if c = '\\' then "\\\\"
  else if c = Char.ofNat 39 then "\\" ++ String.singleton (Char.ofNat 39)
  else if c = Char.ofNat 9 then "\\t"
  else if c = Char.ofNat 10 then "\\n"
  else if c = Char.ofNat 13 then "\\r"
  else if c.toNat < 32 ∨ c.toNat = 127 then
    "\\x" ++ String.mk [hexDigitLower (c.toNat / 16), hexDigitLower (c.toNat % 16)]
  else String.singleton c

mutual

/-- Python `repr` of a JSON-shaped value (single-quoted strings; Python's
switch to double quotes for strings containing a single quote is not modelled:
no request of this client ever places a list or nested container through
`str`, so this branch is dead in the repository). -/
def pyRepr : JsonValue → String
  | .null => "None"
  | .bool true => "True"
  | .bool false => "False"
  | .num n => toString n
  | .str s =>
    String.singleton (Char.ofNat 39) ++
      s.data.foldl (fun acc c => acc ++ pyReprEscapeChar c) "" ++
      String.singleton (Char.ofNat 39)
  | .arr xs => "[" ++ pyReprArr xs ++ "]"
  | .obj fs => "\x7b" ++ pyReprObj fs ++ "\x7d"

/-- Elements of a Python list `repr`, separated by a comma and a space. -/
def pyReprArr : List JsonValue → String
  | [] => ""
  | [x] => pyRepr x
  | x :: y :: xs => pyRepr x ++ ", " ++ pyReprArr (y :: xs)

/-- Entries of a Python dict `repr`, separated by a comma and a space. -/
def pyReprObj : List (String × JsonValue) → String
  | [] => ""
  | [(k, v)] => pyRepr (.str k) ++ ": " ++ pyRepr v
  | (k, v) :: f :: fs => pyRepr (.str k) ++ ": " ++ pyRepr v ++ ", " ++ pyReprObj (f :: fs)

end

/-- Python `str(val)`: identity on strings, `True`/`False`/`None` keywords,
decimal form of integers, `repr`-based rendering of containers. -/
def pyStr : JsonValue → String
  | .null => "None"
  | .bool true => "True"
  | .bool false => "False"
  | .num n => toString n
  | .str s => s
  | .arr xs => pyRepr (.arr xs)
  | .obj fs => pyRepr (.obj fs)

/-- Rendering of one body value inside the signing loop of
`KarcherHome._request` (lines 70–79): `'null'` for `None`, the raw string for
`str`, compact `json.dumps` for `dict`, `str(val)` otherwise. -/
def renderSignValue : JsonValue → String
  | .null => "null"
  | .str s => s
  | .obj fs => compactDumps (.obj fs)
  | .bool b => pyStr (.bool b)
  | .num n => pyStr (.num n)
  | .arr xs => pyStr (.arr xs)

/-- Canonical signing body of a POST/PUT request, exactly the accumulation
loop of `KarcherHome._request`: fields in insertion order, each contributing
its name followed by its rendered value. -/
def canonicalBody (fs : List (String × JsonValue)) : String :=
  fs.foldl (fun data p => data ++ p.1 ++ renderSignValue p.2) ""

/-- UTF-8 bytes of one character. -/
def utf8Bytes (c : Char) : List Nat :=
  let n := c.toNat
  if n < 128 then [n]
  else if n < 2048 then [192 + n / 64, 128 + n % 64]
  else if n < 65536 then [224 + n / 4096, 128 + n / 64 % 64, 128 + n % 64]
  else [240 + n / 262144, 128 + n / 4096 % 64, 128 + n / 64 % 64, 128 + n % 64]

/-- UTF-8 byte sequence of a string. -/
def strBytes (s : String) : List Nat :=
  s.data.foldr (fun c acc => utf8Bytes c ++ acc) []

/-- Bytes `urllib.parse.quote_plus` leaves unencoded: ASCII letters, digits,
and `_`, `.`, `-`, `~`. -/
def isUrlSafeByte (b : Nat) : Bool :=
  (65 ≤ b ∧ b ≤ 90) ∨ (97 ≤ b ∧ b ≤ 122) ∨ (48 ≤ b ∧ b ≤ 57) ∨
    b = 95 ∨ b = 46 ∨ b = 45 ∨ b = 126

/-- Python's `urllib.parse.quote_plus` with its defaults (as called by
`urlencode`): spaces become `+`, safe bytes stay, every other UTF-8 byte
becomes `%XX` with upper-case hex. -/
def quotePlus (s : String) : String :=
  (strBytes s).foldl
    (fun acc b =>
      if b = 32 then acc ++ "+"
      else if isUrlSafeByte b then acc.push (Char.ofNat b)
      else acc ++ "%" ++ String.mk [hexDigitUpper (b / 16), hexDigitUpper (b % 16)])
    ""

/-- Python's `urllib.parse.urlencode` on a dict (in insertion order):
`k1=v1&k2=v2&...` with `quote_plus` applied to keys and values. -/
def urlencode (params : List (String × String)) : String :=
  String.intercalate "&" (params.map fun p => quotePlus p.1 ++ "=" ++ quotePlus p.2)

/-- The `data` string computed by the signing section of
`KarcherHome._request` (lines 58–80): for GET it is the URL-encoded query
parameters (which are also written back into `kwargs['params']`); for POST/PUT
with a dict body it is `canonicalBody`; otherwise it stays the empty string.
A missing `json` kwarg (`kwargs.get('json') or {}`) is represented by
`JsonValue.null` and yields the empty body, like the empty dict. -/
def requestSignData (method : String) (params : List (String × String))
    (body : JsonValue) : String :=
  if method = "GET" then urlencode params
  else if method = "POST" ∨ method = "PUT" then
    match body with
    | .obj fs => canonicalBody fs
    | _ => ""
  else ""

/-- The string whose digest becomes the `sign` header:
`auth + ts + nonce + data` (line 82 of `karcher.py`). -/
def signInput (auth ts nonce data : String) : String :=
  auth ++ ts ++ nonce ++ data

/-- The `sign` header of `KarcherHome._request`, parameterized by the digest
`md5` (from `utils.py`, not part of the sources here; the claims treat it as
an opaque function). -/
def requestSign (md5 : String → String) (method auth ts nonce : String)
    (params : List (String × String)) (body : JsonValue) : String :=
  md5 (signInput auth ts nonce (requestSignData method params body))

/-- Modelled from the spec: the `Session` class lives in `auth.py`, which is
not among the sources; the spec says it "holds an opaque auth token, a user
identifier, a country/region code, and a client-generated registration id".
The field names `auth_token` and `user_id` are the ones `karcher.py` reads. -/
structure Session where
  auth_token : String
  user_id : String
  country_code : String
  register_id : String
deriving DecidableEq

/-- Modelled from the spec: `Session.get_country_code` (used by
`get_map_data`) returns the session's country/region code. -/
def Session.get_country_code (s : Session) : String := s.country_code

/-- The all-empty session value. -/
def Session.empty : Session := ⟨"", "", "", ""⟩

/-- Modelled from the spec: `Session.reset` is "reset to empty". -/
def Session.reset (_ : Session) : Session := Session.empty

/-- Modelled from the spec: the `Device` identity attributes `karcher.py`
reads — "serial number, MAC address, product id, product mode code"
(`device.py` is not among the sources). -/
structure Device where
  sn : String
  mac : String
  product_id : String
  product_mode_code : String

/-- Modelled from the spec: the constants of `consts.py` (not among the
sources).  Only `tenant_id` is ever concatenated into strings by `karcher.py`;
the remaining fields ride along as opaque JSON values. -/
structure Consts where
  tenant_id : String
  project_type : JsonValue
  app_version_code : JsonValue
  app_version_name : JsonValue
  protocol_version : JsonValue

/-- Typed failures raised by the client's Python code: `KarcherHomeException`
with a numeric code, the distinguished `KarcherHomeAccessDenied`, and the
untyped Python `KeyError`/`TypeError` escapes. -/
inductive KError where
  | exception (code : Int) (msg : String)
  | accessDenied (msg : String)
  | keyError (key : String)
  | typeError (msg : String)
deriving DecidableEq

/-- What an API operation does before (or instead of) touching the network:
either it raises `KarcherHomeAccessDenied` without issuing any request, or it
issues a GET, or it issues a POST with a JSON body. -/
inductive ApiAction where
  | denied (msg : String)
  | get (url : String)
  | post (url : String) (body : List (String × JsonValue))

/-- First action of `KarcherHome.get_devices` (lines 177–183): reject a
missing or unauthorized session, otherwise issue the signed GET. -/
def getDevicesAction (sess : Option Session) : ApiAction :=
  match sess with
  | none => .denied "Not authorized"
  | some s =>
    if s.auth_token = "" ∨ s.user_id = "" then .denied "Not authorized"
    else .get ("/smart-home-service/smartHome/user/getDeviceInfoByUserId/" ++ s.user_id)

/-- First action of `KarcherHome.get_families` (lines 211–216). -/
def getFamiliesAction (sess : Option Session) : ApiAction :=
  match sess with
  | none => .denied "Not authorized"
  | some s =>
    if s.auth_token = "" ∨ s.user_id = "" then .denied "Not authorized"
    else .get ("/smart-home-service/smartHome/familyInfo/list/" ++ s.user_id)

/-- First action of `KarcherHome.get_consumables` (lines 220–225). -/
def getConsumablesAction (sess : Option Session) (familyID : String) : ApiAction :=
  match sess with
  | none => .denied "Not authorized"
  | some s =>
    if s.auth_token = "" ∨ s.user_id = "" then .denied "Not authorized"
    else .get ("/smart-home-service/smartHome/consumablesInfo/getConsumablesInfoByFamilyId/" ++ familyID)

/-- The storage directory path built by `get_map_data` (lines 189–190):
`{tenantId}/{productModeCode}/{sn}/01-01-2022/map/temp/0046690461_{sn}_{channel}`. -/
def mapDir (c : Consts) (dev : Device) (ch : Int) : String :=
  c.tenant_id ++ "/" ++ dev.product_mode_code ++ "/" ++ dev.sn ++
    "/01-01-2022/map/temp/0046690461_" ++ dev.sn ++ "_" ++ toString ch

/-- First action of `KarcherHome.get_map_data` (lines 187–197): it performs no
authorization check at all and immediately issues the signed POST for the
storage access URL. -/
def getMapDataAction (c : Consts) (sess : Session) (dev : Device) (ch : Int) : ApiAction :=
  .post "/storage-management/storage/aws/getAccessUrl"
    [("dir", .str (mapDir c dev ch)),
     ("countryCode", .str sess.get_country_code),
     ("serviceType", .num 2),
     ("tenantId", .str c.tenant_id)]

/-- Behaviour of `KarcherHome.logout` (lines 165–175): an unauthorized session
is reset locally with no network traffic; an authorized one sends the logout
POST and is then reset (the model records the session state reached when the
request succeeds). -/
inductive LogoutBehavior where
  | resetNoRequest (finalSession : Session)
  | requestThenReset (url : String) (finalSession : Session)
deriving DecidableEq

/-- Shallow embedding of `KarcherHome.logout`. -/
def logout (sess : Session) : LogoutBehavior :=
  if sess.auth_token = "" ∨ sess.user_id = "" then .resetNoRequest sess.reset
  else .requestThenReset "/user-center/auth/logout" sess.reset

/-- Resolution of the map download URL from the storage access response
(`get_map_data` lines 200–202): start from `d['url']`; when a `cdnDomain`
field is present and not the empty string, replace it by
`'https://' + d['cdnDomain'] + '/' + d['dir']`.  `none` models the Python
`KeyError`/`TypeError` escapes (missing `url` or `dir`, non-string values fed
to `+`). -/
def resolveDownloadUrl (d : List (String × JsonValue)) : Option JsonValue :=
  match jsonLookup "url" d with
  | none => none
  | some u =>
    match jsonLookup "cdnDomain" d with
    | none => some u
    | some (.str cs) =>
      if cs = "" then some u
      else
        match jsonLookup "dir" d with
        | some (.str dir) => some (.str ("https://" ++ cs ++ "/" ++ dir))
        | _ => none
    | some _ => none

/-- Python `v != 0` specialized to the envelope's `code` field: only the
integer `0` (and Python's `False`, which compares equal to `0`) fails it. -/
def pyEqZero : JsonValue → Bool
  | .num 0 => true
  | .bool false => true
  | _ => false

/-- Shallow embedding of `KarcherHome._process_response` (lines 101–117).
`hec` stands for `handle_error_code` from `exception.py` (not among the
sources; per the spec it maps a non-zero envelope code to a typed failure,
with a distinguished access-denied kind) and receives the raw `code` and
`msg` values; `decryptLoads` stands for the composition
`json.loads(decrypt(...))` from `utils.py` applied to the extracted field.
The result is `none` for an envelope without a `result` field, `some` of the
result (or of the decrypted field) otherwise. -/
def processResponse (hec : JsonValue → JsonValue → KError)
    (decryptLoads : JsonValue → Except KError JsonValue)
    (status : Int) (body : JsonValue) (prop : Option String) :
    Except KError (Option JsonValue) :=
  if status ≠ 200 then
    .error (.exception (-1) ("HTTP error: " ++ toString status))
  else
    match body with
    | .obj fields =>
      match jsonLookup "code" fields with
      | none => .error (.keyError "code")
      | some codeV =>
        if pyEqZero codeV then
          match jsonLookup "result" fields with
          | none => .ok none
          | some (.str s) => .error (.exception (-2) ("Invalid response: " ++ s))
          | some result =>
            match prop with
            | none => .ok (some result)
            | some p =>
              match result with
              | .obj rf =>
                match jsonLookup p rf with
                | none => .error (.keyError p)
                | some v => (decryptLoads v).map some
              | _ => .error (.typeError "result is not subscriptable by a string")
        else
          match jsonLookup "msg" fields with
          | none => .error (.keyError "msg")
          | some msgV => .error (hec codeV msgV)
    | _ => .error (.typeError "response body is not an object")

/-- Result of `get_map_data` after download and decryption: either a decoded
floor map (from `Map.parse`) or a generic JSON mapping (from `json.loads`).
The floor-map type is a parameter because the binary decoder of `map.py` is
not among the sources. -/
inductive MapDataResult (FM : Type) where
  | floor (m : FM)
  | generic (j : JsonValue)

/-- Whether a map-data result is a decoded floor map. -/
def MapDataResult.isFloor {FM : Type} : MapDataResult FM → Bool
  | .floor _ => true
  | .generic _ => false

/-- The channel fork at the end of `get_map_data` (lines 206–209): channels 1
and 2 go through the binary map decoder `parseMap` (`Map.parse`), every other
channel through the plain JSON reading `loads` (`json.loads`), applied to the
decrypted bytes `data`. -/
def mapChannelFork (FM : Type) (parseMap : List Nat → FM)
    (loads : List Nat → JsonValue) (ch : Int) (data : List Nat) : MapDataResult FM :=
  if ch = 1 ∨ ch = 2 then .floor (parseMap data) else .generic (loads data)

/-- The JSON body assembled by `KarcherHome.login` (lines 140–157), with the
field cipher `encrypt` and the predicate `is_email` (both from `utils.py`, not
among the sources) as parameters; `lang` is `str(self._language)` and
`register_id` is the caller-supplied or freshly generated registration id. -/
def loginBody (c : Consts) (isEmail : String → Bool) (encrypt : String → String)
    (lang username password register_id : String) : List (String × JsonValue) :=
  let u := if isEmail username then username else "86-" ++ username
  [("tenantId", .str c.tenant_id),
   ("lang", .str lang),
   ("token", .null),
   ("userId", .null),
   ("password", .str (encrypt password)),
   ("username", .str (encrypt u)),
   ("authcode", .null),
   ("projectType", c.project_type),
   ("versionCode", c.app_version_code),
   ("versionName", c.app_version_name),
   ("phoneBrand", .str (encrypt "xiaomi_mi 9")),
   ("phoneSys", .num 1),
   ("noticeSetting", .obj [("andIpad", .str register_id), ("android", .str register_id)])]

/-- Rendering of one body value following the spec's words: the literal
`"null"` if the value is absent/null, the raw string if the value is textual,
a compact (no inserted whitespace) JSON encoding if the value is itself
structured, otherwise the value's decimal/string form. -/
def specRender : JsonValue → String
  | .null => "null"
  | .str s => s
  | .obj fs => compactDumps (.obj fs)
  | other => pyStr other

/-- Canonical signing body following the spec's words: iterate the fields in
their original insertion order and concatenate, for each field, the field
name followed by its rendered value. -/
def specCanonicalBody : List (String × JsonValue) → String
  | [] => ""
  | (name, v) :: rest => name ++ specRender v ++ specCanonicalBody rest

theorem renderSignValue_eq_spec (v : JsonValue) : renderSignValue v = specRender v := by
  cases v <;> rfl

theorem canonicalBody_foldl (fs : List (String × JsonValue)) (acc : String) :
    List.foldl (fun data p => data ++ p.1 ++ renderSignValue p.2) acc fs =
      acc ++ specCanonicalBody fs := by
  induction fs generalizing acc with
  | nil => simp [specCanonicalBody]
  | cons f rest ih =>
    cases f with
    | mk name v =>
      rw [List.foldl_cons, ih]
      simp [specCanonicalBody, renderSignValue_eq_spec, String.append_assoc]

/-- Claim C1 counterexample: for a GET request with query parameters, the
canonical body entering the signature is the URL-encoded query string, not
the empty string, so the string fed to the digest differs from
`auth ++ ts ++ nonce`. -/
theorem C1_get_counterexample :
    requestSignData "GET" [("a", "b")] JsonValue.null = "a=b" ∧
    signInput "t" "1" "n" (requestSignData "GET" [("a", "b")] JsonValue.null) ≠
      signInput "t" "1" "n" "" := by
  constructor
  · decide
  · decide

/-- Claim C1 (amended): for every GET request signed by the canonical signer,
the canonical body entering the signature is the URL-encoded query string, so
the signature is `digest(authToken ++ timestamp ++ nonce ++ urlencode(params))`;
it collapses to `digest(authToken ++ timestamp ++ nonce)` exactly when the
encoded query string is empty (in particular when no parameters are given). -/
theorem C1_get_signing (md5 : String → String) (auth ts nonce : String)
    (params : List (String × String)) :
    requestSign md5 "GET" auth ts nonce params JsonValue.null =
      md5 (auth ++ ts ++ nonce ++ urlencode params) ∧
    (urlencode params = "" →
      requestSign md5 "GET" auth ts nonce params JsonValue.null =
        md5 (auth ++ ts ++ nonce)) := by
  constructor
  · rfl
  · intro h
    simp [requestSign, signInput, requestSignData, h]

/-- Claim C1 witness: the amended theorem evaluated with the identity digest
at an empty parameter list. -/
theorem C1_get_signing_witness :
    requestSign id "GET" "t" "1" "n" [] JsonValue.null = id ("t" ++ "1" ++ "n") :=
  (C1_get_signing id "t" "1" "n" []).2 rfl

/-- Claim C2: for every POST or PUT request with a structured body, the
canonical signing body is obtained by iterating the fields in insertion order
and concatenating each field name with its rendered value (`"null"` for null,
the raw string for strings, compact JSON for nested objects, the
decimal/string form otherwise), so the `sign` header digests
`auth ++ ts ++ nonce ++ specCanonicalBody fields`; order-sensitivity is
witnessed by a concrete pair of bodies that are permutations of one another
and produce different signing strings (for degenerate field names and values
a permutation can collide, so order-sensitivity is stated as this generic
instance, not as a universal). -/
theorem C2_post_canonical_body :
    (∀ fs : List (String × JsonValue), canonicalBody fs = specCanonicalBody fs) ∧
    (∀ (md5 : String → String) (method auth ts nonce : String)
      (fs : List (String × JsonValue)),
      (method = "POST" ∨ method = "PUT") →
      requestSign md5 method auth ts nonce [] (.obj fs) =
        md5 (auth ++ ts ++ nonce ++ specCanonicalBody fs)) ∧
    canonicalBody [("a", .str "x"), ("b", .str "y")] ≠
      canonicalBody [("b", .str "y"), ("a", .str "x")] := by
  refine ⟨fun fs => ?_, fun md5 method auth ts nonce fs h => ?_, by decide⟩
  · simpa [canonicalBody] using canonicalBody_foldl fs ""
  · rcases h with h | h <;> subst h <;>
      simp [requestSign, signInput, requestSignData, canonicalBody, canonicalBody_foldl]

/-- Claim C2 witness: the POST part of the theorem evaluated with the identity
digest on a one-field body. -/
theorem C2_post_canonical_body_witness :
    requestSign id "POST" "t" "1" "n" [] (.obj [("k", JsonValue.null)]) =
      id ("t" ++ "1" ++ "n" ++ specCanonicalBody [("k", JsonValue.null)]) :=
  C2_post_canonical_body.2.1 id "POST" "t" "1" "n" [("k", JsonValue.null)] (Or.inl rfl)

/-- Claim C3: for every session that is missing or not authorized (empty auth
token or empty user id), `get_devices`, `get_families` and `get_consumables`
all raise `KarcherHomeAccessDenied` without issuing a network request (the
`denied` action is raised before the request line is reached). -/
theorem C3_unauthorized_rejected (sess : Option Session) (familyID : String)
    (h : sess = none ∨ ∃ s, sess = some s ∧ (s.auth_token = "" ∨ s.user_id = "")) :
    getDevicesAction sess = .denied "Not authorized" ∧
    getFamiliesAction sess = .denied "Not authorized" ∧
    getConsumablesAction sess familyID = .denied "Not authorized" := by
  rcases h with h | ⟨s, rfl, hs⟩
  · subst h
    exact ⟨rfl, rfl, rfl⟩
  · refine ⟨?_, ?_, ?_⟩ <;>
      simp [getDevicesAction, getFamiliesAction, getConsumablesAction, hs]

/-- Claim C3 witness: the theorem evaluated at the missing session. -/
theorem C3_unauthorized_rejected_witness :
    getDevicesAction none = .denied "Not authorized" ∧
    getFamiliesAction none = .denied "Not authorized" ∧
    getConsumablesAction none "fam" = .denied "Not authorized" :=
  C3_unauthorized_rejected none "fam" (Or.inl rfl)

/-- Claim C4: after download and decryption, channels 1 and 2 return the
output of the binary map decoder as a floor map, any other channel returns
the generic JSON reading and never a floor map, and whether the result is a
floor map depends only on the channel index, never on the blob's content. -/
theorem C4_map_channel_fork (FM : Type) (parseMap : List Nat → FM)
    (loads : List Nat → JsonValue) (ch : Int) (data : List Nat) :
    ((ch = 1 ∨ ch = 2) →
      mapChannelFork FM parseMap loads ch data = .floor (parseMap data)) ∧
    (¬(ch = 1 ∨ ch = 2) →
      mapChannelFork FM parseMap loads ch data = .generic (loads data) ∧
      ∀ m : FM, mapChannelFork FM parseMap loads ch data ≠ .floor m) ∧
    (∀ data2 : List Nat,
      (mapChannelFork FM parseMap loads ch data).isFloor =
        (mapChannelFork FM parseMap loads ch data2).isFloor) := by
  refine ⟨fun h => ?_, fun h => ⟨?_, fun m hm => ?_⟩, fun data2 => ?_⟩
  · simp [mapChannelFork, h]
  · simp [mapChannelFork, h]
  · simp [mapChannelFork, h] at hm
  · by_cases h : ch = 1 ∨ ch = 2 <;> simp [mapChannelFork, h, MapDataResult.isFloor]

/-- Claim C4 witness: the theorem evaluated at channel 3, where the result is
the generic JSON reading. -/
theorem C4_map_channel_fork_witness :
    mapChannelFork Unit (fun _ => Unit.unit) (fun _ => JsonValue.null) 3 [] =
      .generic JsonValue.null :=
  ((C4_map_channel_fork Unit (fun _ => Unit.unit) (fun _ => JsonValue.null) 3 []).2.1
    (by decide)).1

/-- Claim C5: in the storage access response, a non-empty string `cdnDomain`
field takes precedence and the download URL becomes
`https:// ++ cdnDomain ++ / ++ dir`; with the field absent or empty the
literal `url` field is used unchanged. -/
theorem C5_download_url_resolution (d : List (String × JsonValue))
    (u : JsonValue) (c dir : String) (hu : jsonLookup "url" d = some u) :
    (jsonLookup "cdnDomain" d = some (.str c) → c ≠ "" →
      jsonLookup "dir" d = some (.str dir) →
      resolveDownloadUrl d = some (.str ("https://" ++ c ++ "/" ++ dir))) ∧
    (jsonLookup "cdnDomain" d = none → resolveDownloadUrl d = some u) ∧
    (jsonLookup "cdnDomain" d = some (.str "") → resolveDownloadUrl d = some u) := by
  refine ⟨fun hc hne hdir => ?_, fun hc => ?_, fun hc => ?_⟩ <;>
    simp [resolveDownloadUrl, hu, hc]
  · simp [hne, hdir]

/-- Claim C5 witness: the theorem evaluated on a concrete access response
carrying all three fields. -/
theorem C5_download_url_resolution_witness :
    resolveDownloadUrl
      [("url", .str "http://literal"), ("cdnDomain", .str "cdn.example"),
        ("dir", .str "T/p/sn")] =
      some (.str ("https://" ++ "cdn.example" ++ "/" ++ "T/p/sn")) :=
  (C5_download_url_resolution
      [("url", .str "http://literal"), ("cdnDomain", .str "cdn.example"),
        ("dir", .str "T/p/sn")]
      (.str "http://literal") "cdn.example" "T/p/sn" rfl).1 rfl (by decide) rfl

/-- Claim C6: a 200 response whose envelope code is 0 and whose `result`
field is a bare string is rejected as a malformed response
(`KarcherHomeException(-2, 'Invalid response: ...')`), for any requested
extraction property and any error-code table. -/
theorem C6_string_result_malformed (hec : JsonValue → JsonValue → KError)
    (dl : JsonValue → Except KError JsonValue)
    (fields : List (String × JsonValue)) (prop : Option String) (s : String)
    (hcode : jsonLookup "code" fields = some (.num 0))
    (hres : jsonLookup "result" fields = some (.str s)) :
    processResponse hec dl 200 (.obj fields) prop =
      .error (.exception (-2) ("Invalid response: " ++ s)) := by
  simp [processResponse, hcode, hres, pyEqZero]

/-- Claim C6 witness: the theorem evaluated on a concrete envelope with a
string result. -/
theorem C6_string_result_malformed_witness :
    processResponse (fun _ _ => .exception 0 "") (fun v => .ok v) 200
      (.obj [("code", .num 0), ("result", .str "some error text")]) none =
      .error (.exception (-2) ("Invalid response: " ++ "some error text")) :=
  C6_string_result_malformed (fun _ _ => .exception 0 "") (fun v => .ok v)
    [("code", .num 0), ("result", .str "some error text")] none "some error text" rfl rfl

/-- Claim C7: logging out an unauthorized session resets it to the empty
session without issuing a network request, and the logout request is issued
only when both the auth token and the user id are non-empty. -/
theorem C7_logout_local_reset (sess : Session) :
    ((sess.auth_token = "" ∨ sess.user_id = "") →
      logout sess = .resetNoRequest Session.empty) ∧
    (∀ (url : String) (fin : Session), logout sess = .requestThenReset url fin →
      sess.auth_token ≠ "" ∧ sess.user_id ≠ "") := by
  constructor
  · intro h
    simp [logout, h, Session.reset]
  · intro url fin h
    by_cases hc : sess.auth_token = "" ∨ sess.user_id = ""
    · simp [logout, hc] at h
    · exact ⟨fun h1 => hc (Or.inl h1), fun h2 => hc (Or.inr h2)⟩

/-- Claim C7 witness: the theorem evaluated at the already-empty session. -/
theorem C7_logout_local_reset_witness :
    logout Session.empty = .resetNoRequest Session.empty :=
  (C7_logout_local_reset Session.empty).1 (Or.inl rfl)

/-- Claim C8: for every login whose username is not an email address, the
transmitted `username` field is the field-encryption of `"86-"` prepended to
the username, and the `password` field is the field-encryption of the
password. -/
theorem C8_login_username_encryption (c : Consts) (isEmail : String → Bool)
    (encrypt : String → String) (lang username password rid : String)
    (h : isEmail username = false) :
    jsonLookup "username" (loginBody c isEmail encrypt lang username password rid) =
      some (.str (encrypt ("86-" ++ username))) ∧
    jsonLookup "password" (loginBody c isEmail encrypt lang username password rid) =
      some (.str (encrypt password)) := by
  constructor <;> simp [loginBody, jsonLookup, h]

/-- Claim C8 witness: the theorem evaluated with the identity cipher at the
non-email username `12345`. -/
theorem C8_login_username_encryption_witness :
    jsonLookup "username"
      (loginBody ⟨"T", .null, .null, .null, .null⟩ (fun _ => false) id "en"
        "12345" "pw" "r") = some (.str ("86-" ++ "12345")) ∧
    jsonLookup "password"
      (loginBody ⟨"T", .null, .null, .null, .null⟩ (fun _ => false) id "en"
        "12345" "pw" "r") = some (.str "pw") :=
  C8_login_username_encryption ⟨"T", .null, .null, .null, .null⟩ (fun _ => false)
    id "en" "12345" "pw" "r" rfl

/-- Claim C9: `get_map_data` performs no local authorization check — even on
a session with an empty auth token or user id it proceeds straight to the
signed storage-URL POST and never yields the denied action — whereas
`get_devices`, `get_families` and `get_consumables` reject such a session
locally. -/
theorem C9_get_map_data_no_auth_check (c : Consts) (sess : Session)
    (dev : Device) (ch : Int) (familyID : String)
    (h : sess.auth_token = "" ∨ sess.user_id = "") :
    getMapDataAction c sess dev ch =
      .post "/storage-management/storage/aws/getAccessUrl"
        [("dir", .str (mapDir c dev ch)),
         ("countryCode", .str sess.get_country_code),
         ("serviceType", .num 2),
         ("tenantId", .str c.tenant_id)] ∧
    (∀ msg : String, getMapDataAction c sess dev ch ≠ .denied msg) ∧
    getDevicesAction (some sess) = .denied "Not authorized" ∧
    getFamiliesAction (some sess) = .denied "Not authorized" ∧
    getConsumablesAction (some sess) familyID = .denied "Not authorized" := by
  refine ⟨rfl, fun msg hm => ?_, ?_, ?_, ?_⟩
  · simp [getMapDataAction] at hm
  all_goals
    simp [getDevicesAction, getFamiliesAction, getConsumablesAction, h]

/-- Claim C9 witness: the theorem evaluated on a concrete unauthorized
session and device. -/
theorem C9_get_map_data_no_auth_check_witness :
    getMapDataAction ⟨"T", .null, .null, .null, .null⟩ Session.empty
      ⟨"sn1", "mac1", "pid1", "pmc1"⟩ 1 =
      .post "/storage-management/storage/aws/getAccessUrl"
        [("dir", .str (mapDir ⟨"T", .null, .null, .null, .null⟩
            ⟨"sn1", "mac1", "pid1", "pmc1"⟩ 1)),
         ("countryCode", .str Session.empty.get_country_code),
         ("serviceType", .num 2),
         ("tenantId", .str "T")] :=
  (C9_get_map_data_no_auth_check ⟨"T", .null, .null, .null, .null⟩ Session.empty
    ⟨"sn1", "mac1", "pid1", "pmc1"⟩ 1 "fam" (Or.inl rfl)).1

/-- Claim C10: when a code-0 envelope's structured result lacks the field the
caller asked to extract, `_process_response` escapes with Python's untyped
`KeyError` on that field, not with one of the typed client exceptions. -/
theorem C10_missing_prop_keyerror (hec : JsonValue → JsonValue → KError)
    (dl : JsonValue → Except KError JsonValue)
    (fields rf : List (String × JsonValue)) (p : String)
    (hcode : jsonLookup "code" fields = some (.num 0))
    (hres : jsonLookup "result" fields = some (.obj rf))
    (hmiss : jsonLookup p rf = none) :
    processResponse hec dl 200 (.obj fields) (some p) = .error (.keyError p) ∧
    (∀ (code : Int) (msg : String),
      processResponse hec dl 200 (.obj fields) (some p) ≠
        .error (.exception code msg)) ∧
    (∀ msg : String,
      processResponse hec dl 200 (.obj fields) (some p) ≠
        .error (.accessDenied msg)) := by
  have heq : processResponse hec dl 200 (.obj fields) (some p) = .error (.keyError p) := by
    simp [processResponse, hcode, hres, hmiss, pyEqZero]
  refine ⟨heq, fun code msg hne => ?_, fun msg hne => ?_⟩ <;>
    rw [heq] at hne <;> exact (KError.noConfusion (Except.error.inj hne))

/-- Claim C10 witness: the theorem evaluated on a concrete envelope whose
result object lacks the requested field. -/
theorem C10_missing_prop_keyerror_witness :
    processResponse (fun _ _ => .exception 0 "") (fun v => .ok v) 200
      (.obj [("code", .num 0), ("result", .obj [("other", .num 1)])])
      (some "domain") = .error (.keyError "domain") :=
  (C10_missing_prop_keyerror (fun _ _ => .exception 0 "") (fun v => .ok v)
    [("code", .num 0), ("result", .obj [("other", .num 1)])] [("other", .num 1)]
    "domain" rfl rfl rfl).1

end Karcher
